import Mathlib

/-!
Shallow embedding of `src/facade/reply_builder.h` (DragonflyDB outbound
reply serialization layer) and proofs about its documented behavior.

Only the header is available; inline member functions (the RAII guards,
`MGetResponse` move operations, `AllocMGetStorage`, `GetError`,
`SetNoreply`) are translated directly from the source.  Out-of-line
members (`StartAggregate`, `StopAggregate`, `FinishScope`, the `Send*`
bodies, the `MGetResponse` destructor) are modelled from the spec; each
such definition carries a doc comment saying so.
-/

namespace Dragonfly

/-! ## Aggregation state and RAII guards (C1)

`SinkReplyBuilder` keeps a `should_aggregate_` bit; `ReplyAggregator`
(header lines 117-137) is an RAII guard over it.  `SinkReplyBuilder2`
keeps a `scoped_` bit guarded by `ReplyScope` (lines 177-191).  The
state also counts flushes so that "exactly one flush" is expressible. -/

/-- Aggregation-relevant state of a `SinkReplyBuilder`: the
`should_aggregate_` bit plus a counter of flushes performed by
`StopAggregate`. -/
structure AggState where
  should_aggregate : Bool
  flushes : Nat
deriving DecidableEq, Repr

/-- Modelled from the spec: `StartAggregate` is declared in the header
(line 155) but defined in the missing `reply_builder.cc`.  Spec 4.1:
"entering starts aggregation only if not already aggregating"; while
aggregating, sends accumulate into the batch buffer.  Starting sets the
`should_aggregate_` bit. -/
def StartAggregate (s : AggState) : AggState :=
  { s with should_aggregate := true }

/-- Modelled from the spec: `StopAggregate` is declared in the header
(line 156) but defined in the missing `reply_builder.cc`.  Spec 8:
"regardless of nesting depth, exactly one flush occurs, at the exit of
the outermost scope" — stopping clears the bit and flushes the
accumulated bytes. -/
def StopAggregate (s : AggState) : AggState :=
  { should_aggregate := false, flushes := s.flushes + 1 }

/-- `ReplyAggregator`'s constructor (header lines 118-126): if the
builder is already aggregating, do nothing and stay nested
(`is_nested_` keeps its default `true`); otherwise start aggregation
and record `is_nested_ = false`.  Returns the new builder state and the
guard's `is_nested_` field. -/
def ReplyAggregator.enter (s : AggState) : AggState × Bool :=
  if s.should_aggregate then (s, true)
  else (StartAggregate s, false)

/-- `ReplyAggregator`'s destructor (header lines 128-132): stop
aggregation only if this guard started it (`is_nested_ = false`). -/
def ReplyAggregator.onExit (is_nested : Bool) (s : AggState) : AggState :=
  if is_nested then s else StopAggregate s

/-- A well-nested sequence of RAII guard scopes on one builder:
`nil` is the empty sequence, and `guard inner rest` opens a guard,
runs the nested sequence `inner` inside it, closes the guard, then
runs `rest`.  Every stack-disciplined pattern of guard lifetimes has
this shape. -/
inductive GuardSeq where
  | nil : GuardSeq
  | guard (inner rest : GuardSeq) : GuardSeq
deriving DecidableEq, Repr

/-- Run a well-nested sequence of `ReplyAggregator` guards over the
builder state. -/
def runAgg : GuardSeq → AggState → AggState
  | .nil, s => s
  | .guard inner rest, s =>
      let p := ReplyAggregator.enter s
      runAgg rest (ReplyAggregator.onExit p.2 (runAgg inner p.1))

/-- Scope-relevant state of a `SinkReplyBuilder2`: the `scoped_` bit
plus a counter of `FinishScope` calls. -/
structure ScopeState where
  scoped_ : Bool
  finishes : Nat
deriving DecidableEq, Repr

/-- Modelled from the spec: `FinishScope` is declared in the header
(line 198, "Called when scope ends") but defined in the missing
`reply_builder.cc`.  Spec 4.4: "only the outermost scope triggers the
flush on exit" — it performs the scatter-gather flush, counted here. -/
def FinishScope (s : ScopeState) : ScopeState :=
  { s with finishes := s.finishes + 1 }

/-- `ReplyScope`'s constructor (header lines 178-180): save the current
`scoped_` bit as `prev_scoped`, then set `scoped_ = true`.  Returns the
new state and the guard's `prev_scoped` field. -/
def ReplyScope.enter (s : ScopeState) : ScopeState × Bool :=
  ({ s with scoped_ := true }, s.scoped_)

/-- `ReplyScope`'s destructor (header lines 181-186): if `prev_scoped`
is false, clear `scoped_` and call `FinishScope`. -/
def ReplyScope.onExit (prev_scoped : Bool) (s : ScopeState) : ScopeState :=
  if prev_scoped then s else FinishScope { s with scoped_ := false }

/-- Run a well-nested sequence of `ReplyScope` guards. -/
def runScope : GuardSeq → ScopeState → ScopeState
  | .nil, s => s
  | .guard inner rest, s =>
      let p := ReplyScope.enter s
      runScope rest (ReplyScope.onExit p.2 (runScope inner p.1))

/-- While the builder is already aggregating, any well-nested sequence
of inner `ReplyAggregator` guards leaves the state untouched: entry is
a no-op (the constructor returns early) and exit is a no-op
(`is_nested_` is true). -/
theorem runAgg_of_aggregating (g : GuardSeq) :
    ∀ s : AggState, s.should_aggregate = true → runAgg g s = s := by
  induction g with
  | nil => intro s _; rfl
  | guard inner rest ih_inner ih_rest =>
      intro s hs
      simp only [runAgg, ReplyAggregator.enter, hs, if_true,
        ReplyAggregator.onExit, ih_inner s hs, ih_rest s hs]

/-- While the builder is already scoped, any well-nested sequence of
inner `ReplyScope` guards leaves the state untouched: entry rewrites
`scoped_` to the value it already has, and exit sees
`prev_scoped = true`. -/
theorem runScope_of_scoped (g : GuardSeq) :
    ∀ s : ScopeState, s.scoped_ = true → runScope g s = s := by
  induction g with
  | nil => intro s _; rfl
  | guard inner rest ih_inner ih_rest =>
      intro s hs
      have henter : ReplyScope.enter s = (s, true) := by
        cases s with
        | mk sc fin =>
            cases hs
            rfl
      simp only [runScope, henter, ReplyScope.onExit, if_true]
      rw [ih_inner s hs, ih_rest s hs]

/-- C1: for every sequence of nested aggregation/vector scope guards on
one builder, only the outermost guard toggles the accumulate/flush
behavior: entering an inner guard while already aggregating (or already
scoped, for `SinkReplyBuilder2.ReplyScope`) is a no-op, and exactly one
flush/`FinishScope` occurs, at the exit of the outermost guard,
regardless of nesting depth. -/
theorem claim_C1_guard_nesting (inner : GuardSeq) (s : AggState) (t : ScopeState)
    (hs : s.should_aggregate = false) (ht : t.scoped_ = false) :
    (runAgg (.guard inner .nil) s).flushes = s.flushes + 1 ∧
    (runAgg (.guard inner .nil) s).should_aggregate = false ∧
    (∀ u : AggState, u.should_aggregate = true → ReplyAggregator.enter u = (u, true)) ∧
    (∀ (g : GuardSeq) (u : AggState), u.should_aggregate = true → runAgg g u = u) ∧
    (runScope (.guard inner .nil) t).finishes = t.finishes + 1 ∧
    (runScope (.guard inner .nil) t).scoped_ = false ∧
    (∀ (g : GuardSeq) (v : ScopeState), v.scoped_ = true → runScope g v = v) := by
  have h1 : ReplyAggregator.enter s = (StartAggregate s, false) := by
    simp [ReplyAggregator.enter, hs]
  have h2 : runAgg inner (StartAggregate s) = StartAggregate s :=
    runAgg_of_aggregating inner _ rfl
  have hrun : runAgg (.guard inner .nil) s = StopAggregate (StartAggregate s) := by
    simp only [runAgg, h1, h2, ReplyAggregator.onExit, if_false, Bool.false_eq_true]
  have g1 : ReplyScope.enter t = ({ t with scoped_ := true }, false) := by
    simp [ReplyScope.enter, ht]
  have g2 : runScope inner { t with scoped_ := true } = { t with scoped_ := true } :=
    runScope_of_scoped inner _ rfl
  have grun : runScope (.guard inner .nil) t = FinishScope { t with scoped_ := false } := by
    simp only [runScope, g1, g2, ReplyScope.onExit, if_false, Bool.false_eq_true]
  refine ⟨?_, ?_, ?_, ?_, ?_, ?_, ?_⟩
  · rw [hrun]; rfl
  · rw [hrun]; rfl
  · intro u hu; simp [ReplyAggregator.enter, hu]
  · intro g u hu; exact runAgg_of_aggregating g u hu
  · rw [grun]; rfl
  · rw [grun]; rfl
  · intro g v hv; exact runScope_of_scoped g v hv

/-- Witness for C1 at nesting depth 2 with both counters starting at 0. -/
theorem claim_C1_guard_nesting_witness :
    (runAgg (.guard (.guard .nil .nil) .nil) ⟨false, 0⟩).flushes = (0 : Nat) + 1 ∧
    (runAgg (.guard (.guard .nil .nil) .nil) ⟨false, 0⟩).should_aggregate = false ∧
    (∀ u : AggState, u.should_aggregate = true → ReplyAggregator.enter u = (u, true)) ∧
    (∀ (g : GuardSeq) (u : AggState), u.should_aggregate = true → runAgg g u = u) ∧
    (runScope (.guard (.guard .nil .nil) .nil) ⟨false, 0⟩).finishes = (0 : Nat) + 1 ∧
    (runScope (.guard (.guard .nil .nil) .nil) ⟨false, 0⟩).scoped_ = false ∧
    (∀ (g : GuardSeq) (v : ScopeState), v.scoped_ = true → runScope g v = v) :=
  claim_C1_guard_nesting (.guard .nil .nil) ⟨false, 0⟩ ⟨false, 0⟩ rfl rfl

/-! ## Sticky error state (C2)

`GetError` (header lines 109-111) returns the `ec_` member.  The send
path that sets `ec_` lives in the missing `reply_builder.cc`, so it is
modelled from the spec. -/

/-- State relevant to the error-handling contract of
`SinkReplyBuilder`: the `ec_` member (`none` = no error) and the bytes
that have reached the sink so far. -/
structure SendState where
  ec : Option Nat
  sent : List String
deriving DecidableEq, Repr

/-- `GetError` (header lines 109-111): returns `ec_`. -/
def GetError (s : SendState) : Option Nat :=
  s.ec

/-- Modelled from the spec: the shared send path (`SendRaw`/`Send`,
declared at header lines 151-153, defined in the missing
`reply_builder.cc`).  Spec 4.1: `GetError` "returns the first sink I/O
error observed; sticky: once set, it is never cleared by further sends,
and implementations should treat further `Send*` calls as cheap no-ops
(skip byte production)".  `wr` models the sink: for a given payload it
either accepts it (`none`) or reports an I/O error code. -/
def Send (wr : String → Option Nat) (data : String) (s : SendState) : SendState :=
  match s.ec with
  | some _ => s
  | none =>
      match wr data with
      | none => { s with sent := s.sent ++ [data] }
      | some e => { s with ec := some e }

/-- A sequence of `Send*` calls, applied left to right. -/
def Sends (wr : String → Option Nat) (ds : List String) (s : SendState) : SendState :=
  ds.foldl (fun t d => Send wr d t) s

theorem Sends_of_error (wr : String → Option Nat) (ds : List String) :
    ∀ (s : SendState) (e : Nat), s.ec = some e → Sends wr ds s = s := by
  induction ds with
  | nil => intro s e _; rfl
  | cons d ds ih =>
      intro s e hs
      have hsend : Send wr d s = s := by
        unfold Send
        rw [hs]
      simp only [Sends, List.foldl_cons] at *
      rw [hsend]
      exact ih s e hs

/-- C2: once a sink write fails, the error state is sticky: with
`ec_ = e` set, every further sequence of `Send*` calls leaves
`GetError` returning the same first error `e` and produces no further
bytes to the sink; and a failing write from a clean state records that
write's error as `ec_` while sending nothing. -/
theorem claim_C2_sticky_error (wr : String → Option Nat) (ds : List String)
    (s : SendState) (e : Nat) (hs : s.ec = some e) :
    GetError (Sends wr ds s) = some e ∧
    (Sends wr ds s).sent = s.sent ∧
    (∀ (t : SendState) (d : String) (e₀ : Nat), t.ec = none → wr d = some e₀ →
      Send wr d t = { t with ec := some e₀ }) := by
  refine ⟨?_, ?_, ?_⟩
  · rw [Sends_of_error wr ds s e hs]; exact hs
  · rw [Sends_of_error wr ds s e hs]
  · intro t d e₀ ht hw
    unfold Send
    rw [ht, hw]

/-- Witness for C2: an already-failed builder (first error 5) ignores
two further sends. -/
theorem claim_C2_sticky_error_witness :
    GetError (Sends (fun _ => some 7) ["a", "b"] ⟨some 5, ["x"]⟩) = some 5 ∧
    (Sends (fun _ => some 7) ["a", "b"] ⟨some 5, ["x"]⟩).sent = ["x"] ∧
    (∀ (t : SendState) (d : String) (e₀ : Nat), t.ec = none →
      (fun _ => some 7) d = some e₀ →
      Send (fun _ => some 7) d t = { t with ec := some e₀ }) :=
  claim_C2_sticky_error (fun _ => some 7) ["a", "b"] ⟨some 5, ["x"]⟩ 5 rfl

/-! ## Multi-get responses (C3, C4)

`GetResp` (header lines 31-41) is a key-response record; a multi-get
response carries an ordered sequence of optional records.  The two
`SendMGetResponse` implementations live in the missing
`reply_builder.cc`, so they are modelled from the spec. -/

/-- `SinkReplyBuilder::GetResp` (header lines 31-41): key text, value
view, Memcached version (`mc_ver`, 0 meaning "do not output it") and
flags (`mc_flag`). -/
structure GetResp where
  key : String
  value : String
  mc_ver : Nat
  mc_flag : Nat
deriving DecidableEq, Repr

/-- One RESP token emitted by the Redis reply builder, at the
granularity the multi-get claim speaks about: an array header carrying
its declared length, a bulk string, the RESP2 null bulk `$-1\x7br\x7dn`
sentinel, or the RESP3 typed null. -/
inductive RespTok where
  | arrayHeader (n : Nat)
  | bulk (s : String)
  | nullBulkResp2
  | nullResp3
deriving DecidableEq, Repr

/-- Modelled from the spec: `RedisReplyBuilder::SendMGetResponse`
(declared at header line 267, defined in the missing
`reply_builder.cc`).  Spec 4.3: "emits one array whose length equals
the number of requested keys; each entry is a bulk string for a present
key and the version-appropriate null for an absent one". -/
def RedisReplyBuilder.SendMGetResponse (is_resp3 : Bool)
    (resp_arr : List (Option GetResp)) : List RespTok :=
  RespTok.arrayHeader resp_arr.length ::
    resp_arr.map (fun o =>
      match o with
      | some g => RespTok.bulk g.value
      | none => if is_resp3 then RespTok.nullResp3 else RespTok.nullBulkResp2)

/-- C3: for a multi-get of N keys with any hit/miss pattern,
`RedisReplyBuilder::SendMGetResponse` emits exactly one array header
declaring length N at the front, followed by exactly N entries; the
i-th entry is a bulk string carrying the i-th record's value when
present, and the version-appropriate null (RESP3 typed null, RESP2
`$-1`) when absent, in the original order. -/
theorem claim_C3_redis_mget (is_resp3 : Bool) (resp_arr : List (Option GetResp)) :
    (RedisReplyBuilder.SendMGetResponse is_resp3 resp_arr).head? =
      some (RespTok.arrayHeader resp_arr.length) ∧
    (RedisReplyBuilder.SendMGetResponse is_resp3 resp_arr).tail.length =
      resp_arr.length ∧
    (∀ i : Nat,
      (RedisReplyBuilder.SendMGetResponse is_resp3 resp_arr).tail.get? i =
        (resp_arr.get? i).map (fun o =>
          match o with
          | some g => RespTok.bulk g.value
          | none => if is_resp3 then RespTok.nullResp3 else RespTok.nullBulkResp2)) ∧
    (∀ j : Nat, 1 ≤ j →
      (RedisReplyBuilder.SendMGetResponse is_resp3 resp_arr).get? j ≠
        some (RespTok.arrayHeader resp_arr.length) ∨
      ∃ g : GetResp, resp_arr.get? (j - 1) = some (some g)) := by
  refine ⟨rfl, by simp [RedisReplyBuilder.SendMGetResponse], ?_, ?_⟩
  · intro i
    simp [RedisReplyBuilder.SendMGetResponse, List.get?_map]
  · intro j hj
    match j, hj with
    | j + 1, _ =>
        simp only [RedisReplyBuilder.SendMGetResponse, List.get?_cons_succ,
          Nat.add_sub_cancel]
        rw [List.get?_map]
        cases harr : resp_arr.get? j with
        | none => exact Or.inl (by simp)
        | some o =>
            cases o with
            | some g => exact Or.inr ⟨g, rfl⟩
            | none =>
                refine Or.inl ?_
                cases is_resp3 <;> simp

/-- Memcached reply items at the granularity of C4: one `VALUE` block
per present record (key, flags, declared byte length, the optional
cas/version token, and the data payload), or the terminating `END`
line. -/
inductive MCItem where
  | value (key : String) (flags : Nat) (len : Nat) (ver : Option Nat) (data : String)
  | endLine
deriving DecidableEq, Repr

/-- Rendering of one present record as a Memcached `VALUE` block:
`VALUE <key> <flags> <byte-length>[ <version>]` then the data.  The
version token is appended exactly when `mc_ver` is nonzero (header line
35: "0 means we do not output it"). -/
def mcValueItem (g : GetResp) : MCItem :=
  MCItem.value g.key g.mc_flag g.value.length
    (if g.mc_ver = 0 then none else some g.mc_ver) g.value

/-- Modelled from the spec: `MCReplyBuilder::SendMGetResponse`
(declared at header line 231, defined in the missing
`reply_builder.cc`).  Spec 4.2: "emits, for each present key only, one
block `VALUE <key> <flags> <byte-length>[ <version>]` + data, followed
by a trailing terminator line once all keys are processed; absent keys
produce no block". -/
def MCReplyBuilder.SendMGetResponse (resp_arr : List (Option GetResp)) : List MCItem :=
  resp_arr.filterMap (fun o => o.map mcValueItem) ++ [MCItem.endLine]

/-- C4: `MCReplyBuilder::SendMGetResponse` emits one `VALUE` block per
present record only and in order (the blocks are exactly the rendered
present records; absent records contribute nothing), each block carries
the version token exactly when the record's `mc_ver` is nonzero, and
the whole reply ends with the terminator line, which appears nowhere
else. -/
theorem claim_C4_mc_mget (resp_arr : List (Option GetResp)) :
    (MCReplyBuilder.SendMGetResponse resp_arr).dropLast =
      (resp_arr.filterMap id).map mcValueItem ∧
    (MCReplyBuilder.SendMGetResponse resp_arr).getLast? = some MCItem.endLine ∧
    MCItem.endLine ∉ (MCReplyBuilder.SendMGetResponse resp_arr).dropLast ∧
    (∀ g : GetResp, ∀ v : Nat,
      (mcValueItem g = MCItem.value g.key g.mc_flag g.value.length (some v) g.value ↔
        (g.mc_ver = v ∧ v ≠ 0))) := by
  have hfm : resp_arr.filterMap (fun o => o.map mcValueItem) =
      (resp_arr.filterMap id).map mcValueItem := by
    induction resp_arr with
    | nil => rfl
    | cons o rest ih =>
        cases o with
        | none => simpa [List.filterMap_cons] using ih
        | some g => simpa [List.filterMap_cons] using ih
  refine ⟨?_, ?_, ?_, ?_⟩
  · rw [MCReplyBuilder.SendMGetResponse, List.dropLast_concat, hfm]
  · rw [MCReplyBuilder.SendMGetResponse, List.getLast?_concat]
  · rw [MCReplyBuilder.SendMGetResponse, List.dropLast_concat, hfm]
    intro hmem
    rcases List.mem_map.mp hmem with ⟨g, _, hg⟩
    simp [mcValueItem] at hg
  · intro g v
    constructor
    · intro h
      rw [mcValueItem] at h
      by_cases h0 : g.mc_ver = 0
      · simp [h0] at h
      · simp only [h0, if_false] at h
        have := (MCItem.value.injEq _ _ _ _ _ _ _ _ _ _).mp h
        have hv : some g.mc_ver = some v := this.2.2.2.1
        exact ⟨(Option.some_inj.mp hv), fun hv0 => h0 (by
          rw [Option.some_inj.mp hv, hv0])⟩
    · intro ⟨hv, hv0⟩
      rw [mcValueItem]
      subst hv
      simp [hv0]

/-! ## MGetResponse move semantics (C5, C10)

`MGetResponse` (header lines 43-65) holds `storage_list` (a raw
pointer to the head of the arena chain; `nullptr` when empty) and
`resp_arr`.  Copying is disallowed in C++ (the user-declared destructor
and move operations suppress the implicit copy operations), which the
model mirrors by providing only move operations.  The chain is modelled
by its list of node identifiers; `none` models `nullptr`. -/

/-- `SinkReplyBuilder::MGetResponse` (header lines 43-65).
`storage_list = none` models a null `MGetStorage*`; `some chain`
models a pointer to the chain of nodes with the given identifiers. -/
structure MGetResponse where
  storage_list : Option (List Nat)
  resp_arr : List (Option GetResp)
deriving DecidableEq, Repr

/-- The move constructor (header lines 54-57): the destination takes
`other.storage_list` and `other.resp_arr`; afterwards the source's
`storage_list` is null and its vector is moved-from (empty).  Returns
(destination, source-after-move). -/
def MGetResponse.moveCtor (other : MGetResponse) : MGetResponse × MGetResponse :=
  (⟨other.storage_list, other.resp_arr⟩, ⟨none, []⟩)

/-- The move assignment operator (header lines 59-64) for two distinct
objects, translated field operation by field operation; the third
component lists the arena nodes released during the assignment — the
operator body contains no delete, so it is `[]` by construction.
Returns (destination, source-after-move, freed nodes). -/
def MGetResponse.moveAssign (dest other : MGetResponse) :
    MGetResponse × MGetResponse × List Nat :=
  let dest1 : MGetResponse := { dest with resp_arr := other.resp_arr }
  let other1 : MGetResponse := { other with resp_arr := [] }
  let dest2 : MGetResponse := { dest1 with storage_list := other1.storage_list }
  let other2 : MGetResponse := { other1 with storage_list := none }
  (dest2, other2, [])

/-- The move assignment operator executed with `other` aliased to
`*this` (self-move `r = std::move(r)`), following the same three
statements of the body under aliasing.  The vector self-move-assignment
leaves the vector in a valid but unspecified state, modelled here as
unchanged; the claim constrains only `storage_list`, for which the
body first reads `other.storage_list` into itself (a no-op under
aliasing) and then nulls `other.storage_list`, i.e. its own pointer.
Returns (object after self-move, freed nodes). -/
def MGetResponse.moveAssignSelf (r : MGetResponse) : MGetResponse × List Nat :=
  let r1 : MGetResponse := { r with resp_arr := r.resp_arr }
  let r2 : MGetResponse := { r1 with storage_list := r1.storage_list }
  let r3 : MGetResponse := { r2 with storage_list := none }
  (r3, [])

/-- C5: `MGetResponse` moves transfer the arena storage chain and the
record sequence to the destination and leave the source's chain null —
so at most one response owns the arena at a time.  (Copying is
disallowed at the type level in the C++ source; the model accordingly
has no copy operation.) -/
theorem claim_C5_move_only (dest other : MGetResponse) :
    (MGetResponse.moveCtor other).1.storage_list = other.storage_list ∧
    (MGetResponse.moveCtor other).1.resp_arr = other.resp_arr ∧
    (MGetResponse.moveCtor other).2.storage_list = none ∧
    (MGetResponse.moveAssign dest other).1.storage_list = other.storage_list ∧
    (MGetResponse.moveAssign dest other).1.resp_arr = other.resp_arr ∧
    (MGetResponse.moveAssign dest other).2.1.storage_list = none :=
  ⟨rfl, rfl, rfl, rfl, rfl, rfl⟩

/-- C10: move-assigning into a response that owns a non-null chain
overwrites its `storage_list` with the source's without traversing or
releasing the previously owned chain (no node is freed by the
assignment), and self-move-assignment leaves `storage_list` null,
discarding the object's reference to its own chain, again freeing
nothing. -/
theorem claim_C10_move_assign_leak (dest other : MGetResponse) (c : List Nat)
    (hc : dest.storage_list = some c) :
    (MGetResponse.moveAssign dest other).1.storage_list = other.storage_list ∧
    (MGetResponse.moveAssign dest other).2.2 = [] ∧
    (MGetResponse.moveAssignSelf dest).1.storage_list = none ∧
    (MGetResponse.moveAssignSelf dest).2 = [] :=
  ⟨rfl, rfl, rfl, rfl⟩

/-- Witness for C10: a response owning chain [1, 2] move-assigned from
a response owning chain [3]. -/
theorem claim_C10_move_assign_leak_witness :
    (MGetResponse.moveAssign ⟨some [1, 2], []⟩ ⟨some [3], []⟩).1.storage_list =
      (⟨some [3], []⟩ : MGetResponse).storage_list ∧
    (MGetResponse.moveAssign ⟨some [1, 2], []⟩ ⟨some [3], []⟩).2.2 = [] ∧
    (MGetResponse.moveAssignSelf ⟨some [1, 2], []⟩).1.storage_list = none ∧
    (MGetResponse.moveAssignSelf ⟨some [1, 2], []⟩).2 = [] :=
  claim_C10_move_assign_leak ⟨some [1, 2], []⟩ ⟨some [3], []⟩ [1, 2] rfl

/-! ## Scored arrays (C6)

`RedisReplyBuilder::SendScoredArray` is declared at header lines
285-286 and defined in the missing `reply_builder.cc`.  Scores are
doubles in the source; the claim is purely about the emitted shape, so
the score type is left as a parameter. -/

/-- Tokens emitted by `SendScoredArray`: array headers with their
declared length, bulk member strings, and scores (of an abstract score
type `σ`, standing for the formatted double). -/
inductive ScoredTok (σ : Type) where
  | arrayHeader (n : Nat)
  | bulk (s : String)
  | score (v : σ)
deriving DecidableEq, Repr

/-- The nested shape: one outer array of length `|arr|` whose entries
are two-element sub-arrays `[member, score]`. -/
def scoredNested {σ : Type} (arr : List (String × σ)) : List (ScoredTok σ) :=
  ScoredTok.arrayHeader arr.length ::
    arr.flatMap (fun p => [ScoredTok.arrayHeader 2, ScoredTok.bulk p.1, ScoredTok.score p.2])

/-- The flat shape: one array of declared length `2 * |arr|`
alternating member, score. -/
def scoredFlat {σ : Type} (arr : List (String × σ)) : List (ScoredTok σ) :=
  ScoredTok.arrayHeader (2 * arr.length) ::
    arr.flatMap (fun p => [ScoredTok.bulk p.1, ScoredTok.score p.2])

/-- Modelled from the spec: `RedisReplyBuilder::SendScoredArray`
(declared at header lines 285-286, defined in the missing
`reply_builder.cc`).  Spec 4.3: "emits member/score pairs either as
nested two-element sub-arrays (RESP3, when scores requested) or as one
flat array alternating member, score (RESP2 or scores suppressed)". -/
def RedisReplyBuilder.SendScoredArray {σ : Type} (is_resp3 with_scores : Bool)
    (arr : List (String × σ)) : List (ScoredTok σ) :=
  if is_resp3 && with_scores then scoredNested arr else scoredFlat arr

/-- C6: `SendScoredArray` with `with_scores = true` under RESP3 emits
the collection of nested two-element sub-arrays, one per pair; under
RESP2 or with `with_scores = false` it emits the single flat array
alternating member and score; and its output is always one of those
two shapes, never anything else. -/
theorem claim_C6_scored_array {σ : Type} (is_resp3 with_scores : Bool)
    (arr : List (String × σ)) :
    (is_resp3 = true → with_scores = true →
      RedisReplyBuilder.SendScoredArray is_resp3 with_scores arr = scoredNested arr) ∧
    (is_resp3 = false ∨ with_scores = false →
      RedisReplyBuilder.SendScoredArray is_resp3 with_scores arr = scoredFlat arr) ∧
    (RedisReplyBuilder.SendScoredArray is_resp3 with_scores arr = scoredNested arr ∨
      RedisReplyBuilder.SendScoredArray is_resp3 with_scores arr = scoredFlat arr) := by
  refine ⟨?_, ?_, ?_⟩
  · intro h3 hw
    simp [RedisReplyBuilder.SendScoredArray, h3, hw]
  · intro h
    cases h with
    | inl h3 => simp [RedisReplyBuilder.SendScoredArray, h3]
    | inr hw => simp [RedisReplyBuilder.SendScoredArray, hw]
  · rw [RedisReplyBuilder.SendScoredArray]
    by_cases hb : (is_resp3 && with_scores) = true
    · rw [if_pos hb]; exact Or.inl rfl
    · rw [if_neg hb]; exact Or.inr rfl

/-- Witness for C6 on a one-pair list with `Nat` scores, in all three
modes of interest. -/
theorem claim_C6_scored_array_witness :
    ((true : Bool) = true → (true : Bool) = true →
      RedisReplyBuilder.SendScoredArray true true [("a", (2 : Nat))] =
        scoredNested [("a", (2 : Nat))]) ∧
    ((true : Bool) = false ∨ (true : Bool) = false →
      RedisReplyBuilder.SendScoredArray true true [("a", (2 : Nat))] =
        scoredFlat [("a", (2 : Nat))]) ∧
    (RedisReplyBuilder.SendScoredArray true true [("a", (2 : Nat))] =
        scoredNested [("a", (2 : Nat))] ∨
      RedisReplyBuilder.SendScoredArray true true [("a", (2 : Nat))] =
        scoredFlat [("a", (2 : Nat))]) :=
  claim_C6_scored_array true true [("a", (2 : Nat))]

/-! ## Memcached noreply (C7)

`SetNoreply` (header lines 242-244) is inline; the `Send*` bodies and
`ExpectReply`/`HasReplied` (declared at header lines 139-140) live in
the missing `reply_builder.cc` and are modelled from the spec. -/

/-- State of an `MCReplyBuilder` relevant to the noreply contract: the
`noreply_` flag, the `has_replied_` bit, and the bytes appended to the
sink so far. -/
structure MCState where
  noreply : Bool
  has_replied : Bool
  out : List String
deriving DecidableEq, Repr

/-- `MCReplyBuilder::SetNoreply` (header lines 242-244): stores the
flag. -/
def MCReplyBuilder.SetNoreply (noreply : Bool) (s : MCState) : MCState :=
  { s with noreply := noreply }

/-- An event on the Memcached builder: `ExpectReply` (the caller marks
the start of a logical request) or a `Send*` call with the bytes it
would emit. -/
inductive MCEvent where
  | expectReply
  | send (payload : String)
deriving DecidableEq, Repr

/-- Modelled from the spec: the `MCReplyBuilder` send path and the
`ExpectReply`/`HasReplied` bookkeeping (defined in the missing
`reply_builder.cc`).  Spec 4.2: "A noreply flag suppresses every
`Send*` call's output for that one response without altering internal
state tracking (i.e., `HasReplied` bookkeeping still records intent)";
spec 4.1: `ExpectReply`/`HasReplied` "track whether the current logical
request produced output".  A send marks `has_replied_` and appends its
bytes unless `noreply_` is set; `ExpectReply` clears `has_replied_`. -/
def MCReplyBuilder.step (s : MCState) : MCEvent → MCState
  | .expectReply => { s with has_replied := false }
  | .send payload =>
      { s with has_replied := true,
               out := if s.noreply then s.out else s.out ++ [payload] }

/-- Run a sequence of events on the Memcached builder. -/
def MCReplyBuilder.run (evs : List MCEvent) (s : MCState) : MCState :=
  evs.foldl MCReplyBuilder.step s

/-- `HasReplied` (header line 140): returns the `has_replied_` bit. -/
def HasReplied (s : MCState) : Bool :=
  s.has_replied

/-- The `has_replied_` bookkeeping as a pure fold over the event
sequence: `ExpectReply` clears it, every `Send*` sets it. -/
def hrAfter (evs : List MCEvent) (b : Bool) : Bool :=
  evs.foldl (fun _ e =>
    match e with
    | .expectReply => false
    | .send _ => true) b

theorem mc_run_has_replied (evs : List MCEvent) :
    ∀ (n b : Bool) (o : List String),
      (MCReplyBuilder.run evs ⟨n, b, o⟩).has_replied = hrAfter evs b := by
  induction evs with
  | nil => intro n b o; rfl
  | cons ev rest ih =>
      intro n b o
      cases ev with
      | expectReply =>
          simpa [MCReplyBuilder.run, MCReplyBuilder.step, hrAfter] using ih n false o
      | send payload =>
          have hstep : MCReplyBuilder.step ⟨n, b, o⟩ (.send payload) =
              ⟨n, true, if n then o else o ++ [payload]⟩ := rfl
          simp only [MCReplyBuilder.run, List.foldl_cons, hstep, hrAfter] at *
          exact ih n true (if n then o else o ++ [payload])

theorem mc_run_noreply_out (evs : List MCEvent) :
    ∀ (b : Bool) (o : List String), MCReplyBuilder.run evs ⟨true, b, o⟩ =
      ⟨true, hrAfter evs b, o⟩ := by
  induction evs with
  | nil => intro b o; rfl
  | cons ev rest ih =>
      intro b o
      cases ev with
      | expectReply =>
          simpa [MCReplyBuilder.run, MCReplyBuilder.step, hrAfter] using ih false o
      | send payload =>
          have hstep : MCReplyBuilder.step ⟨true, b, o⟩ (.send payload) =
              ⟨true, true, o⟩ := rfl
          simp only [MCReplyBuilder.run, List.foldl_cons, hstep, hrAfter] at *
          exact ih true o

/-- C7: with the noreply flag set, every sequence of `Send*` /
`ExpectReply` events on the Memcached builder appends zero bytes to the
sink, while the `has_replied_` bookkeeping ends up exactly as it would
in the run of the same events without the flag. -/
theorem claim_C7_noreply (evs : List MCEvent) (b : Bool) (o o' : List String) :
    (MCReplyBuilder.run evs (MCReplyBuilder.SetNoreply true ⟨false, b, o⟩)).out = o ∧
    HasReplied (MCReplyBuilder.run evs (MCReplyBuilder.SetNoreply true ⟨false, b, o⟩)) =
      HasReplied (MCReplyBuilder.run evs ⟨false, b, o'⟩) := by
  have hset : MCReplyBuilder.SetNoreply true ⟨false, b, o⟩ = ⟨true, b, o⟩ := rfl
  rw [hset]
  constructor
  · rw [mc_run_noreply_out evs b o]
  · rw [HasReplied, HasReplied, mc_run_noreply_out evs b o,
      mc_run_has_replied evs false b o']

/-- Witness for C7: a send-expect-send sequence with the flag set emits
nothing and tracks replies as the flagless run does. -/
theorem claim_C7_noreply_witness :
    (MCReplyBuilder.run [.send "STORED", .expectReply, .send "END"]
      (MCReplyBuilder.SetNoreply true ⟨false, false, []⟩)).out = [] ∧
    HasReplied (MCReplyBuilder.run [.send "STORED", .expectReply, .send "END"]
        (MCReplyBuilder.SetNoreply true ⟨false, false, []⟩)) =
      HasReplied (MCReplyBuilder.run [.send "STORED", .expectReply, .send "END"]
        ⟨false, false, ["x"]⟩) :=
  claim_C7_noreply [.send "STORED", .expectReply, .send "END"] false [] ["x"]

/-! ## Arena allocation (C8)

`AllocMGetStorage` (header lines 75-79) allocates
`new char[size + sizeof(MGetStorage)]` and placement-constructs a
single `MGetStorage` header (lines 26-29: a pointer `next`, then
`char data[1]`) at its start.  The layout arithmetic follows the
Itanium C++ ABI on a 64-bit target, which is what the source's
`static_assert(alignof(MGetStorage) == 8)` pins down. -/

/-- Alignment of a pointer on the 64-bit target. -/
def alignofPtr : Nat := 8

/-- Alignment of `char`. -/
def alignofChar : Nat := 1

/-- `alignof(MGetStorage)`: the maximum alignment of its fields
(`MGetStorage* next` and `char data[1]`). -/
def alignofMGetStorage : Nat := max alignofPtr alignofChar

/-- Offset of the `data` member: `next` occupies bytes [0, 8), and
`char` needs no padding after it. -/
def MGetStorage.dataOffset : Nat := 8

/-- `sizeof(MGetStorage)`: the fields end at byte 9; the struct size is
rounded up to the struct alignment. -/
def sizeofMGetStorage : Nat :=
  ((MGetStorage.dataOffset + 1 + alignofMGetStorage - 1) / alignofMGetStorage) *
    alignofMGetStorage

/-- Minimum alignment `new char[n]` guarantees on the target
(`__STDCPP_DEFAULT_NEW_ALIGNMENT__`). -/
def defaultNewAlignment : Nat := 16

/-- Byte length of the buffer `AllocMGetStorage` allocates (header
line 77): `size + sizeof(MGetStorage)`. -/
def AllocMGetStorage.bufferSize (size : Nat) : Nat :=
  size + sizeofMGetStorage

/-- Bytes of the allocated buffer available for payload behind the
header's `data` member, i.e. from `data`'s offset to the buffer's
end. -/
def AllocMGetStorage.payloadCapacity (size : Nat) : Nat :=
  AllocMGetStorage.bufferSize size - MGetStorage.dataOffset

/-- The arena node `AllocMGetStorage` returns: whether its `next` link
is null, and its payload capacity. -/
structure ArenaNode where
  next_is_null : Bool
  capacity : Nat
deriving DecidableEq, Repr

/-- `AllocMGetStorage` (header lines 75-79): placement-constructs one
`MGetStorage` at the start of the fresh buffer; the default member
initializer leaves `next = nullptr`, so the result is a single,
unlinked node. -/
def AllocMGetStorage (size : Nat) : ArenaNode :=
  ⟨true, AllocMGetStorage.payloadCapacity size⟩

/-- Modelled from the spec: `~MGetResponse` is declared at header line
52 and defined in the missing `reply_builder.cc`.  Spec 4.1: arena
nodes are "freed only by the response's destructor walking the chain".
Returns the identifiers of the nodes the destructor frees. -/
def MGetResponse.destructorFrees (r : MGetResponse) : List Nat :=
  match r.storage_list with
  | none => []
  | some chain => chain

/-- C8: `AllocMGetStorage size` yields a single node (null `next`
link) whose payload region after the fixed header holds `size` bytes;
its storage is 8-byte aligned (`alignof(MGetStorage) = 8`, and any
address with the default `new` alignment satisfies it); and nodes are
freed only by the owning response's destructor, which walks and frees
exactly the chain — the move operations free nothing. -/
theorem claim_C8_alloc_storage (size addr : Nat)
    (haddr : addr % defaultNewAlignment = 0) :
    size ≤ (AllocMGetStorage size).capacity ∧
    (AllocMGetStorage size).next_is_null = true ∧
    alignofMGetStorage = 8 ∧
    addr % alignofMGetStorage = 0 ∧
    (∀ (r : MGetResponse) (chain : List Nat),
      r.storage_list = some chain → MGetResponse.destructorFrees r = chain) ∧
    (∀ d o : MGetResponse, (MGetResponse.moveAssign d o).2.2 = []) ∧
    (∀ r : MGetResponse, (MGetResponse.moveAssignSelf r).2 = []) := by
  have hsz : sizeofMGetStorage = 16 := by
    simp [sizeofMGetStorage, MGetStorage.dataOffset, alignofMGetStorage,
      alignofPtr, alignofChar]
  have hal : alignofMGetStorage = 8 := by
    simp [alignofMGetStorage, alignofPtr, alignofChar]
  refine ⟨?_, rfl, hal, ?_, ?_, fun _ _ => rfl, fun _ => rfl⟩
  · show size ≤ AllocMGetStorage.payloadCapacity size
    rw [AllocMGetStorage.payloadCapacity, AllocMGetStorage.bufferSize, hsz,
      MGetStorage.dataOffset]
    omega
  · rw [hal]
    rw [defaultNewAlignment] at haddr
    omega
  · intro r chain hr
    rw [MGetResponse.destructorFrees, hr]

/-- Witness for C8 at payload size 100 and buffer address 32. -/
theorem claim_C8_alloc_storage_witness :
    (32 : Nat) % defaultNewAlignment = 0 ∧
    ((100 : Nat) ≤ (AllocMGetStorage 100).capacity ∧
      (AllocMGetStorage 100).next_is_null = true ∧
      alignofMGetStorage = 8 ∧
      (32 : Nat) % alignofMGetStorage = 0 ∧
      (∀ (r : MGetResponse) (chain : List Nat),
        r.storage_list = some chain → MGetResponse.destructorFrees r = chain) ∧
      (∀ d o : MGetResponse, (MGetResponse.moveAssign d o).2.2 = []) ∧
      (∀ r : MGetResponse, (MGetResponse.moveAssignSelf r).2 = [])) :=
  ⟨by decide, claim_C8_alloc_storage 100 32 (by decide)⟩

end Dragonfly
